import Mathlib

/-!
Verification of the AI provider routing layer of the PatientSystem repository.

This file gives a shallow embedding of the routing core:

* src/ai/base_client.py : TaskComplexity, AIRequest, AIResponse, AIProviderError
* src/ai/router.py      : AIRouter (classify_task, get_provider_chain,
  _try_provider with its tenacity retry decorator, route, health_check_all,
  get_available_providers)
* src/utils/exceptions.py and src/utils/error_handler.py : the exception
  hierarchy and the error_context context manager that wraps exceptions
* src/ai/ollama_client.py, openai_client.py, anthropic_client.py,
  google_client.py : list_models and the default-parameter combination
  inside complete

Modelling conventions:

* Python objects live on a heap indexed by Nat; the router registry
  (self.clients) is an association list from provider name to an optional
  heap id, mirroring the dict built in AIRouter.__init__ (two names may
  alias one heap id, as "gpt-5" / "gpt-5-mini" share one OpenAI client).
* A client's network behaviour is abstracted by a function
  (model name, call index) -> Except PyExc AIResponse; the call counter in
  ClientState records how often complete has been invoked, which lets the
  theorems talk about "complete is invoked n times".
* Python floats are modelled as rationals (the claims only concern the
  literal 0.0), machine integers as Int/Nat.
* Exceptions are the PyExc inductive; raising is Except.error.  The
  error_context context manager from error_handler.py is the function
  errorContextWrap below: it re-raises BasePatientSystemError instances
  unchanged and wraps anything else into an AIServiceError whose message is
  "AI service error in " ++ operation ++ ": " ++ str(original).
* The tenacity decorator retry(stop=stop_after_attempt(3),
  retry=retry_if_exception_type((AIProviderError, TimeoutError)),
  reraise=True) is the function tryProviderGo: at most 3 attempts, a new
  attempt only when the raised exception is an AIProviderError or a
  TimeoutError, the last exception re-raised as is.  The exponential-backoff
  sleep between attempts has no observable effect in this state model.
-/

/-- TaskComplexity enum from base_client.py. -/
inductive TaskComplexity where
  | simple
  | moderate
  | complex
deriving DecidableEq

/-- AIResponse dataclass from base_client.py.  The open metadata dict is
abstracted as an association list of strings. -/
structure AIResponse where
  content : String
  model : String
  provider : String
  tokens_used : Option Nat
  latency_ms : Option ℚ
  metadata : List (String × String)
deriving DecidableEq

/-- AIRequest dataclass from base_client.py. -/
structure AIRequest where
  prompt : String
  system_prompt : Option String
  temperature : ℚ
  max_tokens : Int
  task_complexity : TaskComplexity
  metadata : List (String × String)
deriving DecidableEq

/-- The exceptions that can travel through the routing core.

* timeoutError: the builtin TimeoutError raised by every client on a
  backend timeout.
* aiProviderError: base_client.AIProviderError (message, provider,
  status_code); it subclasses Exception, not BasePatientSystemError.
* aiServiceError: exceptions.AIServiceError, the one
  BasePatientSystemError subclass produced in this code path (raised
  directly for an unconfigured provider, and produced by
  ErrorHandler.wrap_error for category AI_SERVICE).  The provider field
  models the provider recorded in its context dict.
* otherError: any other exception type. -/
inductive PyExc where
  | timeoutError (msg : String)
  | aiProviderError (message : String) (provider : String) (status_code : Option Int)
  | aiServiceError (message : String) (provider : Option String)
  | otherError (msg : String)
deriving DecidableEq

/-- isinstance(e, BasePatientSystemError): only AIServiceError qualifies in
this code path (AIProviderError subclasses plain Exception). -/
def PyExc.isBasePatientSystemError : PyExc → Bool
  | .aiServiceError _ _ => true
  | _ => false

/-- isinstance(e, (AIProviderError, TimeoutError)): the tuple used both by
the tenacity retry predicate on _try_provider and by the except clause of
AIRouter.route. -/
def PyExc.isProviderOrTimeout : PyExc → Bool
  | .timeoutError _ => true
  | .aiProviderError _ _ _ => true
  | _ => false

/-- A single-quote character, used to spell Python message strings that
contain quotes. -/
def sqChar : String := String.singleton (Char.ofNat 39)

/-- str(e) for each exception shape.  AIProviderError.__str__ joins
"provider: message" and appends "(HTTP code)" when status_code is truthy;
BasePatientSystemError falls back to Exception.__str__, i.e. the message. -/
def PyExc.pyStr : PyExc → String
  | .timeoutError m => m
  | .aiProviderError m p st =>
      match st with
      | some c => if c ≠ 0 then p ++ ": " ++ m ++ " (HTTP " ++ toString c ++ ")" else p ++ ": " ++ m
      | none => p ++ ": " ++ m
  | .aiServiceError m _ => m
  | .otherError m => m

/-- The state of one client object: its mutable model_name attribute,
whether it is an OpenAIClient instance (for the isinstance check in
_try_provider), the abstracted network behaviour of complete (as a function
of the model name used for the call and of the call index), the abstracted
outcome of health_check, and counters of how often complete and
health_check have been invoked. -/
structure ClientState where
  model_name : String
  isOpenAI : Bool
  behavior : String → Nat → Except PyExc AIResponse
  health : Except PyExc Bool
  calls : Nat
  healthCalls : Nat

/-- The mutable world: the router registry self.clients (provider name to
optional client heap id, as built in AIRouter.__init__) plus the heap of
client objects. -/
structure World where
  clients : List (String × Option Nat)
  heap : Nat → ClientState

/-- Write one client object back to the heap. -/
def updateHeap (h : Nat → ClientState) (i : Nat) (c : ClientState) : Nat → ClientState :=
  fun j => if j = i then c else h j

/-- The router configuration fields consumed from AIRouter.__init__.
Note: max_retries is stored by __init__ but never read by route or by the
retry decorator, which hard-codes stop_after_attempt(3). -/
structure RouterConfig where
  strategy : String
  enable_fallback : Bool
  max_retries : Nat

/-- The registry dict built in AIRouter.__init__: the aliasing of "gpt-5"
and "gpt-5-mini" to the one openai_client argument is structural here. -/
def mkRegistry (ollama_client claude_client openai_client google_client : Option Nat) :
    List (String × Option Nat) :=
  [("ollama", ollama_client), ("claude", claude_client), ("gpt-5", openai_client),
   ("gpt-5-mini", openai_client), ("gemini", google_client)]

/-- TASK_COMPLEXITY_MAP from router.py. -/
def TASK_COMPLEXITY_MAP : List (String × TaskComplexity) :=
  [("patient_summary", TaskComplexity.simple), ("basic_stats", TaskComplexity.simple),
   ("recent_visits", TaskComplexity.simple),
   ("lab_trend_analysis", TaskComplexity.moderate), ("medication_adherence", TaskComplexity.moderate),
   ("visit_patterns", TaskComplexity.moderate),
   ("differential_diagnosis", TaskComplexity.complex), ("treatment_planning", TaskComplexity.complex),
   ("drug_interactions", TaskComplexity.complex), ("risk_stratification", TaskComplexity.complex)]

/-- AIRouter.classify_task: dict lookup with default MODERATE. -/
def classify_task (task_type : String) : TaskComplexity :=
  (TASK_COMPLEXITY_MAP.lookup task_type).getD TaskComplexity.moderate

/-- MODEL_PRIORITY from router.py.  The Python code reads it through
.get(complexity, ["ollama"]); the default is unreachable because the enum
is total, so the table is embedded as a total function. -/
def MODEL_PRIORITY (complexity : TaskComplexity) : List String :=
  match complexity with
  | .simple => ["ollama"]
  | .moderate => ["ollama", "gpt-5-mini"]
  | .complex => ["claude", "gpt-5", "gemini", "ollama"]

/-- Python: preferred_provider in self.clients (dict key containment). -/
def hasKey (clients : List (String × Option Nat)) (k : String) : Bool :=
  clients.any (fun kv => kv.1 == k)

/-- AIRouter.get_provider_chain.  The guard is the Python truthiness test
"if preferred_provider and preferred_provider in self.clients". -/
def get_provider_chain (clients : List (String × Option Nat)) (complexity : TaskComplexity)
    (preferred_provider : Option String) : List String :=
  match preferred_provider with
  | some p =>
      if (p != "") && hasKey clients p then
        p :: (MODEL_PRIORITY complexity).filter (fun q => q != p)
      else
        MODEL_PRIORITY complexity
  | none => MODEL_PRIORITY complexity

/-- The message of the AIServiceError raised in _try_provider when
self.clients.get(provider_name) is falsy:
"Provider 'name' not configured". -/
def notConfiguredMsg (provider_name : String) : String :=
  "Provider " ++ sqChar ++ provider_name ++ sqChar ++ " not configured"

/-- One execution of the body of AIRouter._try_provider (the code inside
the error_context block, before the context manager transforms the
exception).  The "gpt-5-mini" branch models the temporary model-name swap:
the call is made with model name "gpt-5-mini" (client.model_name is set to
"gpt-5-mini" for the duration of the call) and the finally block restores
the original name, so the post-state keeps the original model_name and
only the call counter advances. -/
def tryProviderBody (w : World) (provider_name : String) : Except PyExc AIResponse × World :=
  match w.clients.lookup provider_name with
  | none =>
      (Except.error (PyExc.aiServiceError (notConfiguredMsg provider_name) (some provider_name)), w)
  | some none =>
      (Except.error (PyExc.aiServiceError (notConfiguredMsg provider_name) (some provider_name)), w)
  | some (some cid) =>
      if provider_name == "gpt-5-mini" && (w.heap cid).isOpenAI then
        ((w.heap cid).behavior ("gpt-5-mini") (w.heap cid).calls,
         { w with heap := updateHeap w.heap cid ({ w.heap cid with calls := (w.heap cid).calls + 1 }) })
      else
        ((w.heap cid).behavior (w.heap cid).model_name (w.heap cid).calls,
         { w with heap := updateHeap w.heap cid ({ w.heap cid with calls := (w.heap cid).calls + 1 }) })

/-- The operation string passed to error_context in _try_provider. -/
def aiOperationName (provider_name : String) : String :=
  "AI provider request: " ++ provider_name

/-- error_context from error_handler.py, specialised to
category=AI_SERVICE: a BasePatientSystemError is re-raised unchanged;
anything else is replaced by the AIServiceError built by
ErrorHandler.wrap_error, whose message is
"AI service error in " ++ operation ++ ": " ++ str(original) and whose
context records the provider. -/
def errorContextWrap (operation : String) (provider_name : String) (e : PyExc) : PyExc :=
  if e.isBasePatientSystemError then e
  else PyExc.aiServiceError ("AI service error in " ++ operation ++ ": " ++ e.pyStr)
        (some provider_name)

/-- One attempt of _try_provider as seen by the tenacity decorator: run the
body, and on an exception let the error_context context manager transform
it. -/
def tryProviderAttempt (w : World) (provider_name : String) : Except PyExc AIResponse × World :=
  ((tryProviderBody w provider_name).1.mapError
      (errorContextWrap (aiOperationName provider_name) provider_name),
   (tryProviderBody w provider_name).2)

/-- The tenacity retry loop around _try_provider, with `n` attempts still
allowed: retry only while the raised exception is an AIProviderError or a
TimeoutError and an attempt remains; otherwise re-raise the last
exception (reraise=True). -/
def tryProviderGo (provider_name : String) : Nat → World → Except PyExc AIResponse × World
  | 0, w => tryProviderAttempt w provider_name
  | 1, w => tryProviderAttempt w provider_name
  | n + 2, w =>
      match tryProviderAttempt w provider_name with
      | (Except.ok r, w2) => (Except.ok r, w2)
      | (Except.error e, w2) =>
          if e.isProviderOrTimeout then tryProviderGo provider_name (n + 1) w2
          else (Except.error e, w2)

/-- AIRouter._try_provider: the retry decorator is configured with
stop_after_attempt(3). -/
def tryProvider (w : World) (provider_name : String) : Except PyExc AIResponse × World :=
  tryProviderGo provider_name 3 w

/-- The provider loop of AIRouter.route: try each provider in the chain;
on success return immediately; an AIProviderError or TimeoutError is
recorded and, with fallback enabled, the loop continues (with fallback
disabled it is re-raised); any other exception propagates uncaught.  When
the chain is exhausted, raise the aggregate AIProviderError attributed to
provider "router". -/
def routeGo (enable_fallback : Bool) :
    List String → List String → World → Except PyExc AIResponse × World
  | [], errors, w =>
      (Except.error (PyExc.aiProviderError
          ("All providers failed. Errors: " ++ String.intercalate ("; ") errors) "router" none), w)
  | provider_name :: rest, errors, w =>
      match tryProvider w provider_name with
      | (Except.ok r, w2) => (Except.ok r, w2)
      | (Except.error e, w2) =>
          if e.isProviderOrTimeout then
            if enable_fallback then
              routeGo enable_fallback rest (errors ++ [provider_name ++ ": " ++ e.pyStr]) w2
            else
              (Except.error e, w2)
          else
            (Except.error e, w2)

/-- AIRouter.route: classify (overwriting request.task_complexity when a
task_type is given), resolve the chain once, then run the provider loop. -/
def route (cfg : RouterConfig) (w : World) (request : AIRequest)
    (task_type : Option String) (preferred_provider : Option String) :
    Except PyExc AIResponse × World :=
  match task_type with
  | some t => routeGo cfg.enable_fallback
      (get_provider_chain w.clients (classify_task t) preferred_provider) [] w
  | none => routeGo cfg.enable_fallback
      (get_provider_chain w.clients request.task_complexity preferred_provider) [] w

/-- The try/except around one client's health_check inside
health_check_all: an exception is caught and reported as False. -/
def healthCheckOne (w : World) (cid : Nat) : Bool :=
  match (w.heap cid).health with
  | Except.ok b => b
  | Except.error _ => false

/-- Record one invocation of a client's health_check. -/
def bumpHealthCalls (w : World) (cid : Nat) : World :=
  { w with
    heap := updateHeap w.heap cid ({ w.heap cid with healthCalls := (w.heap cid).healthCalls + 1 }) }

/-- The loop of AIRouter.health_check_all over the registry entries:
a None client is reported False without invoking anything; a configured
client is invoked and an exception from it is caught and reported False. -/
def healthCheckGo : List (String × Option Nat) → World → List (String × Bool) × World
  | [], w => ([], w)
  | (name, none) :: rest, w =>
      ((name, false) :: (healthCheckGo rest w).1, (healthCheckGo rest w).2)
  | (name, some cid) :: rest, w =>
      ((name, healthCheckOne w cid) :: (healthCheckGo rest (bumpHealthCalls w cid)).1,
       (healthCheckGo rest (bumpHealthCalls w cid)).2)

/-- AIRouter.health_check_all. -/
def health_check_all (w : World) : List (String × Bool) × World :=
  healthCheckGo w.clients w

/-- AIRouter.get_available_providers. -/
def get_available_providers (w : World) : List String × World :=
  ((w.clients.filter (fun kv => kv.2.isSome)).map (fun kv => kv.1), w)

/-- A Gemini model entry as returned by genai.list_models, with the fields
read by GoogleClient.list_models. -/
structure GoogleModelInfo where
  name : String
  supported_generation_methods : List String
deriving DecidableEq

namespace OllamaClient

/-- OllamaClient.list_models: the HTTP GET on /api/tags is abstracted as an
Except carrying the status code and the model names of the response body.
On status 200 the names are returned; on any other status the function
falls through to the trailing return []; an exception is caught and []
returned (the function never raises). -/
def list_models (fetch_tags : Except PyExc (Nat × List String)) : List String :=
  match fetch_tags with
  | Except.ok (status, names) => if status == 200 then names else []
  | Except.error _ => []

end OllamaClient

namespace GoogleClient

/-- GoogleClient.list_models: genai.list_models is abstracted as an Except
carrying the model entries.  On success the models supporting
generateContent are returned; an exception is caught and the static list
of two known models is returned (the function never raises). -/
def list_models (listing : Except PyExc (List GoogleModelInfo)) : List String :=
  match listing with
  | Except.ok models =>
      (models.filter (fun m => m.supported_generation_methods.contains ("generateContent"))).map
        (fun m => m.name)
  | Except.error _ => ["gemini-2.5-pro", "gemini-pro-vision"]

end GoogleClient

namespace OpenAIClient

/-- OpenAIClient.list_models: returns a hard-coded list without consulting
the backend (even though the OpenAI backend does expose a listing API,
which OpenAIClient.health_check uses). -/
def list_models : List String :=
  ["gpt-5", "gpt-5-mini", "gpt-4-turbo", "gpt-4", "gpt-3.5-turbo"]

end OpenAIClient

namespace AnthropicClient

/-- AnthropicClient.list_models: returns a hard-coded list; the Anthropic
backend has no listing API. -/
def list_models : List String :=
  ["claude-3-5-sonnet-20241022", "claude-3-opus-20240229", "claude-3-sonnet-20240229",
   "claude-3-haiku-20240307"]

end AnthropicClient

/-- Python truthiness combination x or d for an optional float argument
(floats modelled as rationals): None and 0.0 are falsy and replaced by the
instance-level default. -/
def pyOrRat (override : Option ℚ) (instance_value : ℚ) : ℚ :=
  match override with
  | none => instance_value
  | some v => if v = 0 then instance_value else v

/-- Python truthiness combination x or d for an optional int argument:
None and 0 are falsy and replaced by the instance-level default. -/
def pyOrInt (override : Option Int) (instance_value : Int) : Int :=
  match override with
  | none => instance_value
  | some v => if v = 0 then instance_value else v

/-- The instance-level defaults stored by BaseAIClient.__init__ that
complete combines with its per-call overrides. -/
structure ClientDefaults where
  temperature : ℚ
  max_tokens : Int
deriving DecidableEq

/-- The expression temperature or self.temperature that appears in the
complete method of all four clients (ollama_client.py, openai_client.py,
anthropic_client.py, google_client.py). -/
def effective_temperature (c : ClientDefaults) (temperature : Option ℚ) : ℚ :=
  pyOrRat temperature c.temperature

/-- The expression max_tokens or self.max_tokens that appears in the
complete method of all four clients. -/
def effective_max_tokens (c : ClientDefaults) (max_tokens : Option Int) : Int :=
  pyOrInt max_tokens c.max_tokens

/-- A default router configuration as produced by AIRouter.__init__
defaults: strategy smart, fallback enabled, max_retries 3. -/
def cfgDefault : RouterConfig :=
  { strategy := "smart", enable_fallback := true, max_retries := 3 }

/-- A concrete request used by the evaluation theorems. -/
def requestDefault : AIRequest :=
  { prompt := "p", system_prompt := none, temperature := 1/2, max_tokens := 4096,
    task_complexity := TaskComplexity.moderate, metadata := [] }

/-- An Ollama client whose complete always raises
TimeoutError("Ollama request timeout after 60s"). -/
def ollamaTimeoutClient : ClientState :=
  { model_name := "gemma:7b", isOpenAI := false,
    behavior := fun _ _ => Except.error (PyExc.timeoutError ("Ollama request timeout after 60s")),
    health := Except.ok true, calls := 0, healthCalls := 0 }

/-- An Ollama client whose complete always succeeds. -/
def ollamaOkClient : ClientState :=
  { model_name := "gemma:7b", isOpenAI := false,
    behavior := fun _ _ => Except.ok
      { content := "ok", model := "gemma:7b", provider := "ollama",
        tokens_used := some 5, latency_ms := some 12, metadata := [] },
    health := Except.ok true, calls := 0, healthCalls := 0 }

/-- A Google client whose complete always raises
TimeoutError("Google Gemini request timeout after 120s"). -/
def geminiTimeoutClient : ClientState :=
  { model_name := "gemini-2.5-pro", isOpenAI := false,
    behavior := fun _ _ =>
      Except.error (PyExc.timeoutError ("Google Gemini request timeout after 120s")),
    health := Except.ok true, calls := 0, healthCalls := 0 }

/-- An OpenAI client whose complete always raises an AIProviderError and
whose health_check raises. -/
def openAIErrorClient : ClientState :=
  { model_name := "gpt-5", isOpenAI := true,
    behavior := fun _ _ =>
      Except.error (PyExc.aiProviderError ("OpenAI API error: boom") ("openai") none),
    health := Except.error (PyExc.otherError ("connection refused")),
    calls := 0, healthCalls := 0 }

/-- An OpenAI client whose complete succeeds, echoing the model name it was
called with (so the gpt-5-mini swap is observable in the response). -/
def openAIOkClient : ClientState :=
  { model_name := "gpt-5", isOpenAI := true,
    behavior := fun m _ => Except.ok
      { content := "hi", model := m, provider := "openai",
        tokens_used := some 7, latency_ms := some 30, metadata := [] },
    health := Except.ok true, calls := 0, healthCalls := 0 }

/-- World for the retry-bound evaluation: only ollama configured, its
complete always timing out. -/
def wC1 : World :=
  { clients := mkRegistry (some 0) none none none, heap := fun _ => ollamaTimeoutClient }

/-- World for the fallback evaluation: gemini (heap id 0) configured and
always timing out, ollama (heap id 1) configured and succeeding. -/
def wC2 : World :=
  { clients := mkRegistry (some 1) none none (some 0),
    heap := fun i => if i = 0 then geminiTimeoutClient else ollamaOkClient }

/-- World for the aggregate-error evaluation: ollama (heap id 0) timing
out and the OpenAI client (heap id 1) failing with an AIProviderError, so
every provider of the MODERATE chain fails. -/
def wC3 : World :=
  { clients := mkRegistry (some 0) none (some 1) none,
    heap := fun i => if i = 0 then ollamaTimeoutClient else openAIErrorClient }

/-- World for the unconfigured-provider evaluation: claude unconfigured
(None in the registry), OpenAI (heap id 0) configured and succeeding. -/
def wC4 : World :=
  { clients := mkRegistry none none (some 0) none, heap := fun _ => openAIOkClient }

/-- World for the C7 witness: gpt-5 and gpt-5-mini share the OpenAI client
at heap id 1 (model_name "gpt-5"). -/
def wC7 : World :=
  { clients := mkRegistry (some 0) none (some 1) none,
    heap := fun i => if i = 1 then openAIOkClient else ollamaOkClient }

/-- World for the C8 witness: ollama (heap id 0) healthy, the OpenAI
client (heap id 1, shared by gpt-5 and gpt-5-mini) with a raising
health_check, claude and gemini unconfigured. -/
def wC8 : World :=
  { clients := mkRegistry (some 0) none (some 1) none,
    heap := fun i => if i = 1 then openAIErrorClient else ollamaOkClient }

/-- The boolean that health_check_all reports for one registry entry:
False for an unconfigured (None) entry, otherwise the client's
health_check outcome with exceptions converted to False. -/
def expectedHealth (w : World) : Option Nat → Bool
  | none => false
  | some cid => healthCheckOne w cid

/-- Claim C10: in every provider client's complete, a caller-supplied
temperature of 0.0 or max_tokens of 0 is combined with the instance
defaults through Python truthiness (x or default), so a falsy explicit
override is replaced by the instance-level default exactly as if it had
been absent. -/
theorem claim_C10_falsy_overrides (c : ClientDefaults) :
    effective_temperature c (some 0) = c.temperature ∧
    effective_temperature c none = c.temperature ∧
    effective_max_tokens c (some 0) = c.max_tokens ∧
    effective_max_tokens c none = c.max_tokens := by
  refine ⟨?_, rfl, ?_, rfl⟩ <;>
    simp [effective_temperature, effective_max_tokens, pyOrRat, pyOrInt]

/-- Claim C5, counterexample: GoogleClient.list_models returns the static
two-element list, not an empty sequence, when the underlying
genai.list_models call raises — refuting the claim that a failing listing
call always yields an empty sequence. -/
theorem claim_C5_counterexample :
    GoogleClient.list_models (Except.error (PyExc.otherError ("boom"))) =
      ["gemini-2.5-pro", "gemini-pro-vision"] ∧
    GoogleClient.list_models (Except.error (PyExc.otherError ("boom"))) ≠ ([] : List String) := by
  exact ⟨rfl, by decide⟩

/-- Claim C5 as amended: no list_models implementation raises (they are
total functions here); on a failing listing call Ollama's returns an empty
list but Google's returns its static known-good list; OpenAI and Anthropic
return static lists without consulting the backend at all (OpenAI despite
its backend exposing a listing API); on a 200 response Ollama returns the
backend's model names, and on a non-200 status an empty list. -/
theorem claim_C5_amended (e : PyExc) :
    OllamaClient.list_models (Except.error e) = [] ∧
    GoogleClient.list_models (Except.error e) = ["gemini-2.5-pro", "gemini-pro-vision"] ∧
    OpenAIClient.list_models = ["gpt-5", "gpt-5-mini", "gpt-4-turbo", "gpt-4", "gpt-3.5-turbo"] ∧
    AnthropicClient.list_models =
      ["claude-3-5-sonnet-20241022", "claude-3-opus-20240229", "claude-3-sonnet-20240229",
       "claude-3-haiku-20240307"] ∧
    (∀ names : List String, OllamaClient.list_models (Except.ok (200, names)) = names) ∧
    (∀ (status : Nat) (names : List String), status ≠ 200 →
        OllamaClient.list_models (Except.ok (status, names)) = []) := by
  refine ⟨rfl, rfl, rfl, rfl, fun names => rfl, fun status names h => ?_⟩
  simp [OllamaClient.list_models, h]

/-- Witness for claim C5: the amended theorem applied at a concrete failing
status code. -/
theorem claim_C5_witness :
    OllamaClient.list_models (Except.ok (500, ["m1", "m2"])) = [] :=
  (claim_C5_amended (PyExc.otherError ("x"))).2.2.2.2.2 500 (["m1", "m2"]) (by decide)

/-- Claim C1, evaluation at the failing input: with ollama's complete
always raising a timeout, _try_provider invokes complete exactly once (not
3 times) and propagates an AIServiceError — error_context wraps the
TimeoutError into an AIServiceError before the tenacity predicate
retry_if_exception_type((AIProviderError, TimeoutError)) sees it, so no
retry ever fires. -/
theorem claim_C1_retry_bound_code_bug :
    ((tryProvider wC1 ("ollama")).2.heap 0).calls = 1 ∧
    (tryProvider wC1 ("ollama")).1 =
      Except.error (PyExc.aiServiceError
        ("AI service error in AI provider request: ollama: Ollama request timeout after 60s")
        (some ("ollama"))) := by
  exact ⟨rfl, rfl⟩

/-- Claim C2, evaluation at the failing input: fallback enabled, resolved
chain [gemini, ollama, gpt-5-mini] (preferred gemini over the MODERATE
chain), gemini always timing out and ollama succeeding.  route does not
return ollama's Response: the AIServiceError produced for gemini is not an
AIProviderError or TimeoutError, so route's except clause does not catch
it and it propagates before any further provider is tried — ollama's
complete is never invoked. -/
theorem claim_C2_fallback_code_bug :
    (route cfgDefault wC2 requestDefault (some ("lab_trend_analysis")) (some ("gemini"))).1 =
      Except.error (PyExc.aiServiceError
        ("AI service error in AI provider request: gemini: Google Gemini request timeout after 120s")
        (some ("gemini"))) ∧
    ((route cfgDefault wC2 requestDefault (some ("lab_trend_analysis")) (some ("gemini"))).2.heap
        1).calls = 0 ∧
    ((route cfgDefault wC2 requestDefault (some ("lab_trend_analysis")) (some ("gemini"))).2.heap
        0).calls = 1 := by
  exact ⟨rfl, rfl, rfl⟩

/-- Claim C3, evaluation at the failing input: fallback enabled, MODERATE
chain [ollama, gpt-5-mini] with both providers failing.  route raises the
AIServiceError wrapped around ollama's first timeout — not the aggregate
AIProviderError attributed to provider "router" — and the second provider
is never even tried, so no aggregate message containing every provider's
failure can be built. -/
theorem claim_C3_aggregate_code_bug :
    (route cfgDefault wC3 requestDefault (some ("lab_trend_analysis")) none).1 =
      Except.error (PyExc.aiServiceError
        ("AI service error in AI provider request: ollama: Ollama request timeout after 60s")
        (some ("ollama"))) ∧
    ((route cfgDefault wC3 requestDefault (some ("lab_trend_analysis")) none).2.heap 1).calls
        = 0 ∧
    (∀ msg : String,
      (route cfgDefault wC3 requestDefault (some ("lab_trend_analysis")) none).1 ≠
        Except.error (PyExc.aiProviderError msg ("router") none)) := by
  refine ⟨rfl, rfl, fun msg h => ?_⟩
  exact PyExc.noConfusion (Except.error.inj h)

/-- Claim C4, evaluation at the failing input: fallback enabled, COMPLEX
chain [claude, gpt-5, gemini, ollama] with claude mapped to None in the
registry and gpt-5 configured.  The configuration AIServiceError for
claude is indeed raised on the first attempt without retries (that half of
the claim matches the code), but route's except clause does not catch it,
so routing does not continue: the error propagates and gpt-5's complete is
never invoked. -/
theorem claim_C4_unconfigured_code_bug :
    (route cfgDefault wC4 requestDefault (some ("differential_diagnosis")) none).1 =
      Except.error (PyExc.aiServiceError (notConfiguredMsg ("claude")) (some ("claude"))) ∧
    ((route cfgDefault wC4 requestDefault (some ("differential_diagnosis")) none).2.heap 0).calls
        = 0 := by
  exact ⟨rfl, rfl⟩

/-- Claim C6: for every complexity tier and every preferred provider that
is a registered key of the registry built by AIRouter.__init__,
get_provider_chain returns the preferred identity first, followed by the
tier's standard chain with the preferred identity filtered out (filter
preserves the standard chain's relative order, and the tail is a sublist
of the standard chain), so the preferred identity occurs exactly once; a
preferred identity that is not a registered key, or an absent one, leaves
the tier's standard chain unchanged. -/
theorem claim_C6_preferred_chain (o c oa g : Option Nat) (complexity : TaskComplexity)
    (p : String) (hreg : hasKey (mkRegistry o c oa g) p = true) :
    get_provider_chain (mkRegistry o c oa g) complexity (some p)
        = p :: (MODEL_PRIORITY complexity).filter (fun q => q != p) ∧
    (get_provider_chain (mkRegistry o c oa g) complexity (some p)).count p = 1 ∧
    List.Sublist ((get_provider_chain (mkRegistry o c oa g) complexity (some p)).tail)
        (MODEL_PRIORITY complexity) ∧
    (∀ q : String, hasKey (mkRegistry o c oa g) q = false →
        get_provider_chain (mkRegistry o c oa g) complexity (some q)
          = MODEL_PRIORITY complexity) ∧
    get_provider_chain (mkRegistry o c oa g) complexity none = MODEL_PRIORITY complexity := by
  have hne : (p != "") = true := by
    have h2 := hreg
    simp [hasKey, mkRegistry] at h2
    rcases h2 with h | h | h | h | h <;> subst h <;> decide
  have hchain : get_provider_chain (mkRegistry o c oa g) complexity (some p)
      = p :: (MODEL_PRIORITY complexity).filter (fun q => q != p) := by
    simp [get_provider_chain, hne, hreg]
  have hcount0 : ((MODEL_PRIORITY complexity).filter (fun q => q != p)).count p = 0 := by
    apply List.count_eq_zero.mpr
    intro hmem
    have h3 := (List.mem_filter.mp hmem).2
    simp at h3
  refine ⟨hchain, ?_, ?_, ?_, rfl⟩
  · rw [hchain]
    simp [hcount0]
  · rw [hchain]
    exact List.filter_sublist _
  · intro q hq
    simp [get_provider_chain, hq]

/-- Witness for claim C6: the chain resolved for a COMPLEX task with
preferred provider gemini in a fully configured registry. -/
theorem claim_C6_witness :
    get_provider_chain (mkRegistry (some 0) (some 1) (some 2) (some 3)) TaskComplexity.complex
        (some ("gemini"))
      = "gemini" :: (MODEL_PRIORITY TaskComplexity.complex).filter (fun q => q != "gemini") :=
  (claim_C6_preferred_chain (some 0) (some 1) (some 2) (some 3) TaskComplexity.complex ("gemini")
    (by decide)).1

/-- One execution of the _try_provider body never changes any client's
model_name: the "gpt-5-mini" branch restores the original name in its
finally block, and every other branch only advances the call counter. -/
theorem tryProviderBody_model_name (w : World) (provider_name : String) (cid : Nat) :
    ((tryProviderBody w provider_name).2.heap cid).model_name = (w.heap cid).model_name := by
  unfold tryProviderBody
  split
  · rfl
  · rfl
  · split
    all_goals
      dsimp only [updateHeap]
      split
      · rename_i h
        subst h
        rfl
      · rfl

/-- The error_context transformation does not touch the world, so one
decorated attempt preserves every client's model_name as well. -/
theorem tryProviderAttempt_model_name (w : World) (provider_name : String) (cid : Nat) :
    ((tryProviderAttempt w provider_name).2.heap cid).model_name = (w.heap cid).model_name :=
  tryProviderBody_model_name w provider_name cid

/-- The whole retry loop preserves every client's model_name. -/
theorem tryProviderGo_model_name (provider_name : String) :
    ∀ (n : Nat) (w : World) (cid : Nat),
      ((tryProviderGo provider_name n w).2.heap cid).model_name = (w.heap cid).model_name
  | 0, w, cid => tryProviderAttempt_model_name w provider_name cid
  | 1, w, cid => tryProviderAttempt_model_name w provider_name cid
  | n + 2, w, cid => by
    have ha := tryProviderAttempt_model_name w provider_name cid
    unfold tryProviderGo
    cases hres : tryProviderAttempt w provider_name with
    | mk res w2 =>
      rw [hres] at ha
      cases res with
      | ok r => exact ha
      | error e =>
        dsimp only
        split
        · rw [tryProviderGo_model_name provider_name (n + 1) w2 cid]
          exact ha
        · exact ha

/-- Claim C7: an attempt routed through the aliased identity "gpt-5-mini"
against a shared OpenAI client leaves the shared client's model_name equal
to its pre-call value whether complete returned or raised (the swap to
"gpt-5-mini" is never left in place), and the completion call itself is
made under the swapped model name "gpt-5-mini". -/
theorem claim_C7_model_name_restore (w : World) (cid : Nat)
    (hshared : w.clients.lookup ("gpt-5-mini") = some (some cid))
    (hopenai : (w.heap cid).isOpenAI = true) :
    ((tryProvider w ("gpt-5-mini")).2.heap cid).model_name = (w.heap cid).model_name ∧
    (tryProviderBody w ("gpt-5-mini")).1
      = (w.heap cid).behavior ("gpt-5-mini") (w.heap cid).calls := by
  refine ⟨tryProviderGo_model_name ("gpt-5-mini") 3 w cid, ?_⟩
  unfold tryProviderBody
  rw [hshared]
  simp [hopenai]

/-- Witness for claim C7 at a concrete shared client. -/
theorem claim_C7_witness :
    ((tryProvider wC7 ("gpt-5-mini")).2.heap 1).model_name = (wC7.heap 1).model_name ∧
    (tryProviderBody wC7 ("gpt-5-mini")).1
      = (wC7.heap 1).behavior ("gpt-5-mini") (wC7.heap 1).calls :=
  claim_C7_model_name_restore wC7 1 rfl rfl

/-- Recording a health_check invocation changes no client's abstracted
health outcome. -/
theorem bumpHealthCalls_health (w : World) (cid j : Nat) :
    ((bumpHealthCalls w cid).heap j).health = (w.heap j).health := by
  unfold bumpHealthCalls
  dsimp only [updateHeap]
  split
  · rename_i h
    subst h
    rfl
  · rfl

/-- Recording a health_check invocation changes no per-client reported
boolean. -/
theorem healthCheckOne_bump (w : World) (cid j : Nat) :
    healthCheckOne (bumpHealthCalls w cid) j = healthCheckOne w j := by
  unfold healthCheckOne
  rw [bumpHealthCalls_health]

/-- The health_check_all loop reports, for every registry entry in order,
exactly the expected boolean computed from the initial world. -/
theorem healthCheckGo_fst :
    ∀ (es : List (String × Option Nat)) (w : World),
      (healthCheckGo es w).1 = es.map (fun kv => (kv.1, expectedHealth w kv.2))
  | [], _ => rfl
  | (name, none) :: rest, w => by
    dsimp only [healthCheckGo, List.map]
    rw [healthCheckGo_fst rest w]
    rfl
  | (name, some cid) :: rest, w => by
    dsimp only [healthCheckGo, List.map]
    rw [healthCheckGo_fst rest (bumpHealthCalls w cid)]
    have hcongr :
        (fun kv : String × Option Nat => (kv.1, expectedHealth (bumpHealthCalls w cid) kv.2))
          = fun kv : String × Option Nat => (kv.1, expectedHealth w kv.2) := by
      funext kv
      rcases kv with ⟨n2, oc⟩
      cases oc with
      | none => rfl
      | some cid2 =>
        dsimp only [expectedHealth]
        rw [healthCheckOne_bump]
    rw [hcongr]
    rfl

/-- A client that no registry entry maps to is never invoked by
health_check_all: its invocation counter is unchanged. -/
theorem healthCheckGo_healthCalls :
    ∀ (es : List (String × Option Nat)) (w : World) (cid : Nat),
      (∀ name : String, (name, some cid) ∉ es) →
      ((healthCheckGo es w).2.heap cid).healthCalls = (w.heap cid).healthCalls
  | [], _, _, _ => rfl
  | (name, none) :: rest, w, cid, h => by
    dsimp only [healthCheckGo]
    exact healthCheckGo_healthCalls rest w cid (fun n2 hm => h n2 (List.mem_cons_of_mem _ hm))
  | (name, some cid2) :: rest, w, cid, h => by
    dsimp only [healthCheckGo]
    have hne : cid2 ≠ cid := by
      intro heq
      subst heq
      exact h name (List.mem_cons_self _ _)
    rw [healthCheckGo_healthCalls rest (bumpHealthCalls w cid2) cid
      (fun n2 hm => h n2 (List.mem_cons_of_mem _ hm))]
    unfold bumpHealthCalls
    dsimp only [updateHeap]
    rw [if_neg (fun hh => hne (Eq.symm hh))]

/-- Claim C8: health_check_all reports a boolean for every registry key in
order; an identity mapped to None is reported false (and a client id that
no entry maps to is never invoked); a client whose health_check raises is
reported false; every other configured client receives its own
health_check boolean. -/
theorem claim_C8_health_check_isolation (w : World) :
    (health_check_all w).1.map Prod.fst = w.clients.map Prod.fst ∧
    (∀ name : String, (name, (none : Option Nat)) ∈ w.clients →
        (name, false) ∈ (health_check_all w).1) ∧
    (∀ (name : String) (cid : Nat) (e : PyExc), (name, some cid) ∈ w.clients →
        (w.heap cid).health = Except.error e → (name, false) ∈ (health_check_all w).1) ∧
    (∀ (name : String) (cid : Nat) (b : Bool), (name, some cid) ∈ w.clients →
        (w.heap cid).health = Except.ok b → (name, b) ∈ (health_check_all w).1) ∧
    (∀ cid : Nat, (∀ name : String, (name, some cid) ∉ w.clients) →
        ((health_check_all w).2.heap cid).healthCalls = (w.heap cid).healthCalls) := by
  have hfst : (health_check_all w).1 = w.clients.map (fun kv => (kv.1, expectedHealth w kv.2)) :=
    healthCheckGo_fst w.clients w
  refine ⟨?_, ?_, ?_, ?_, ?_⟩
  · have hcomp :
        (Prod.fst ∘ fun kv : String × Option Nat => (kv.1, expectedHealth w kv.2)) = Prod.fst := by
      funext kv
      rfl
    rw [hfst, List.map_map, hcomp]
  · intro name hmem
    rw [hfst]
    exact List.mem_map.mpr ⟨(name, none), hmem, rfl⟩
  · intro name cid e hmem herr
    rw [hfst]
    refine List.mem_map.mpr ⟨(name, some cid), hmem, ?_⟩
    dsimp only [expectedHealth]
    unfold healthCheckOne
    rw [herr]
  · intro name cid b hmem hok
    rw [hfst]
    refine List.mem_map.mpr ⟨(name, some cid), hmem, ?_⟩
    dsimp only [expectedHealth]
    unfold healthCheckOne
    rw [hok]
  · intro cid hnone
    exact healthCheckGo_healthCalls w.clients w cid hnone

/-- Witness for claim C8: in wC8 the raising OpenAI client is reported
false under both of its aliases while ollama still gets its own true and
the unconfigured claude is reported false. -/
theorem claim_C8_witness :
    ("gpt-5", false) ∈ (health_check_all wC8).1 ∧
    ("ollama", true) ∈ (health_check_all wC8).1 ∧
    ("claude", false) ∈ (health_check_all wC8).1 :=
  ⟨(claim_C8_health_check_isolation wC8).2.2.1 ("gpt-5") 1
      (PyExc.otherError ("connection refused")) (by decide) rfl,
   (claim_C8_health_check_isolation wC8).2.2.2.1 ("ollama") 0 true (by decide) rfl,
   (claim_C8_health_check_isolation wC8).2.1 ("claude") (by decide)⟩

/-- The _try_provider body never touches the router registry. -/
theorem tryProviderBody_clients (w : World) (provider_name : String) :
    (tryProviderBody w provider_name).2.clients = w.clients := by
  unfold tryProviderBody
  split
  · rfl
  · rfl
  · split
    · rfl
    · rfl

/-- One decorated attempt never touches the router registry. -/
theorem tryProviderAttempt_clients (w : World) (provider_name : String) :
    (tryProviderAttempt w provider_name).2.clients = w.clients :=
  tryProviderBody_clients w provider_name

/-- The retry loop never touches the router registry. -/
theorem tryProviderGo_clients (provider_name : String) :
    ∀ (n : Nat) (w : World), (tryProviderGo provider_name n w).2.clients = w.clients
  | 0, w => tryProviderAttempt_clients w provider_name
  | 1, w => tryProviderAttempt_clients w provider_name
  | n + 2, w => by
    have ha := tryProviderAttempt_clients w provider_name
    unfold tryProviderGo
    cases hres : tryProviderAttempt w provider_name with
    | mk res w2 =>
      rw [hres] at ha
      cases res with
      | ok r => exact ha
      | error e =>
        dsimp only
        split
        · rw [tryProviderGo_clients provider_name (n + 1) w2]
          exact ha
        · exact ha

/-- _try_provider never touches the router registry. -/
theorem tryProvider_clients (w : World) (provider_name : String) :
    (tryProvider w provider_name).2.clients = w.clients :=
  tryProviderGo_clients provider_name 3 w

/-- The provider loop of route never touches the router registry. -/
theorem routeGo_clients (enable_fallback : Bool) :
    ∀ (chain errors : List String) (w : World),
      (routeGo enable_fallback chain errors w).2.clients = w.clients
  | [], _, _ => rfl
  | provider_name :: rest, errors, w => by
    have ht := tryProvider_clients w provider_name
    unfold routeGo
    cases hres : tryProvider w provider_name with
    | mk res w2 =>
      rw [hres] at ht
      cases res with
      | ok r => exact ht
      | error e =>
        dsimp only
        split
        · split
          · rw [routeGo_clients enable_fallback rest
              (errors ++ [provider_name ++ ": " ++ e.pyStr]) w2]
            exact ht
          · exact ht
        · exact ht

/-- The health_check_all loop never touches the router registry. -/
theorem healthCheckGo_clients :
    ∀ (es : List (String × Option Nat)) (w : World),
      (healthCheckGo es w).2.clients = w.clients
  | [], _ => rfl
  | (_, none) :: rest, w => healthCheckGo_clients rest w
  | (_, some cid) :: rest, w => by
    dsimp only [healthCheckGo]
    rw [healthCheckGo_clients rest (bumpHealthCalls w cid)]
    rfl

/-- Claim C9: the provider registry is never mutated after construction —
route (for every request, task type and preferred provider),
health_check_all and get_available_providers all leave the registry
mapping identical, keys and values alike. -/
theorem claim_C9_registry_immutable (cfg : RouterConfig) (w : World) (request : AIRequest)
    (task_type preferred_provider : Option String) :
    (route cfg w request task_type preferred_provider).2.clients = w.clients ∧
    (health_check_all w).2.clients = w.clients ∧
    (get_available_providers w).2.clients = w.clients := by
  refine ⟨?_, healthCheckGo_clients w.clients w, rfl⟩
  unfold route
  cases task_type with
  | some t => exact routeGo_clients cfg.enable_fallback _ [] w
  | none => exact routeGo_clients cfg.enable_fallback _ [] w
